import Mathlib

/-! Shallow embedding of the project-fenix backend transaction core:
the singleton `EstadoApp` progress record, the CRUD primitives and the
business-logic operations of `app/crud.py`, together with the
router-level operations of `app/routers/canciones.py`,
`app/routers/juegos.py` and `app/routers/premios.py`.

Database state is modelled as an explicit `EstadoApp` value threaded
through each operation; timestamps (`datetime.utcnow()`) are abstracted
to a `Nat` parameter `now`.  A Python function that raises `ValueError`
is modelled as returning `Except String` paired with the (unchanged)
state, the error message being the one the source builds.
-/

/-- A reason record from `razones.json` (`Reason` in the spec). -/
structure Razon where
  id : Int
  texto : String
  emoji : String
  categoria : String
  puntos_requeridos : Int
deriving Repr, DecidableEq

/-- A letter record from `cartas.json`. -/
structure Carta where
  id : Int
  titulo : String
  contenido : String
deriving Repr, DecidableEq

/-- A prize record from `premios.json`.  The `disponible` key is optional
in the JSON: `routers/premios.py` reads it as `premio.get("disponible", True)`,
hence it is modelled as `Option Bool`. -/
structure Premio where
  id : Int
  nombre : String
  costo : Int
  emoji : String
  disponible : Option Bool
deriving Repr, DecidableEq

/-- A song record from `canciones.json`. -/
structure Cancion where
  id : Int
  nombre : String
  artista : String
  link : String
  motivo : String
deriving Repr, DecidableEq

/-- One entry of the `premios_reclamados` JSON column:
`{"premio_id": ..., "fecha_reclamado": ...}`. -/
structure PremioReclamado where
  premio_id : Int
  fecha_reclamado : Nat
deriving Repr, DecidableEq

/-- The singleton `estado_app` row (`app/models.py`). -/
structure EstadoApp where
  puntos_consideracion : Int
  estrellas : Int
  razones_desbloqueadas : List Int
  cartas_leidas : List Int
  canciones_escuchadas : List Int
  premios_reclamados : List PremioReclamado
  updated_at : Nat
deriving Repr, DecidableEq

/-- Embeds `create_default_estado` (crud.py): all-zero/empty defaults. -/
def create_default_estado (now : Nat) : EstadoApp :=
  { puntos_consideracion := 0
    estrellas := 0
    razones_desbloqueadas := []
    cartas_leidas := []
    canciones_escuchadas := []
    premios_reclamados := []
    updated_at := now }

/-- Embeds `increment_puntos` (crud.py). -/
def increment_puntos (e : EstadoApp) (incremento : Int) (now : Nat) : EstadoApp :=
  { e with puntos_consideracion := e.puntos_consideracion + incremento
           updated_at := now }

/-- Embeds `add_estrellas` (crud.py). -/
def add_estrellas (e : EstadoApp) (cantidad : Int) (now : Nat) : EstadoApp :=
  { e with estrellas := e.estrellas + cantidad, updated_at := now }

/-- Embeds `subtract_estrellas` (crud.py): `nueva_cantidad = max(0, estrellas - cantidad)`. -/
def subtract_estrellas (e : EstadoApp) (cantidad : Int) (now : Nat) : EstadoApp :=
  { e with estrellas := max 0 (e.estrellas - cantidad), updated_at := now }

/-- Embeds `add_razon_desbloqueada` (crud.py): appends if not already present,
otherwise leaves the row untouched (no commit). -/
def add_razon_desbloqueada (e : EstadoApp) (razon_id : Int) (now : Nat) : EstadoApp :=
  if razon_id ∈ e.razones_desbloqueadas then e
  else { e with razones_desbloqueadas := e.razones_desbloqueadas ++ [razon_id]
                updated_at := now }

/-- Embeds `add_carta_leida` (crud.py). -/
def add_carta_leida (e : EstadoApp) (carta_id : Int) (now : Nat) : EstadoApp :=
  if carta_id ∈ e.cartas_leidas then e
  else { e with cartas_leidas := e.cartas_leidas ++ [carta_id], updated_at := now }

/-- Embeds `add_cancion_escuchada` (crud.py). -/
def add_cancion_escuchada (e : EstadoApp) (cancion_id : Int) (now : Nat) : EstadoApp :=
  if cancion_id ∈ e.canciones_escuchadas then e
  else { e with canciones_escuchadas := e.canciones_escuchadas ++ [cancion_id]
                updated_at := now }

/-- Embeds `add_premio_reclamado` (crud.py): unconditionally appends a
`(premio_id, fecha_reclamado)` entry. -/
def add_premio_reclamado (e : EstadoApp) (premio_id : Int) (now : Nat) : EstadoApp :=
  { e with premios_reclamados := e.premios_reclamados ++ [⟨premio_id, now⟩]
           updated_at := now }

/-- Embeds `is_carta_leida` (crud.py): `carta_id in estado.cartas_leidas`. -/
def is_carta_leida (e : EstadoApp) (carta_id : Int) : Bool :=
  decide (carta_id ∈ e.cartas_leidas)

/-- Embeds `is_cancion_escuchada` (crud.py): `cancion_id in estado.canciones_escuchadas`. -/
def is_cancion_escuchada (e : EstadoApp) (cancion_id : Int) : Bool :=
  decide (cancion_id ∈ e.canciones_escuchadas)

/-- Embeds `is_premio_reclamado` (crud.py):
`any(premio["premio_id"] == premio_id for premio in estado.premios_reclamados)`. -/
def is_premio_reclamado (e : EstadoApp) (premio_id : Int) : Bool :=
  e.premios_reclamados.any (fun premio => premio.premio_id == premio_id)

/-- Embeds `get_estrellas_disponibles` (crud.py). -/
def get_estrellas_disponibles (e : EstadoApp) : Int :=
  e.estrellas

/-- Embeds `tiene_suficientes_estrellas` (crud.py): `estrellas_actuales >= cantidad_requerida`. -/
def tiene_suficientes_estrellas (e : EstadoApp) (cantidad_requerida : Int) : Bool :=
  decide (cantidad_requerida ≤ get_estrellas_disponibles e)

/-- Outcome of reading and parsing one catalog JSON file, the part of
`load_json_data` that talks to the file system. -/
inductive JsonLoadOutcome (α : Type) where
  | ok (data : List α)
  | fileNotFound
  | jsonDecodeError
deriving Repr

/-- Embeds `load_json_data` (crud.py): a `FileNotFoundError` or a
`json.JSONDecodeError` is caught, a warning is printed, and `[]` is
returned; the exception never propagates. -/
def load_json_data {α : Type} (outcome : JsonLoadOutcome α) : List α :=
  match outcome with
  | .ok data => data
  | .fileNotFound => []
  | .jsonDecodeError => []

/-- Embeds `get_carta_by_id` (crud.py): first record with matching id, else `None`. -/
def get_carta_by_id (cartas : List Carta) (carta_id : Int) : Option Carta :=
  cartas.find? (fun carta => carta.id == carta_id)

/-- Embeds `get_razon_by_id` (crud.py). -/
def get_razon_by_id (razones : List Razon) (razon_id : Int) : Option Razon :=
  razones.find? (fun razon => razon.id == razon_id)

/-- Embeds `get_premio_by_id` (crud.py). -/
def get_premio_by_id (premios : List Premio) (premio_id : Int) : Option Premio :=
  premios.find? (fun premio => premio.id == premio_id)

/-- Embeds `get_cancion_by_id` (crud.py). -/
def get_cancion_by_id (canciones : List Cancion) (cancion_id : Int) : Option Cancion :=
  canciones.find? (fun cancion => cancion.id == cancion_id)

/-- The loop body of `get_nuevas_razones_desbloqueadas` (crud.py), written as
recursion over the catalog list: `razones_ya` is the `razones_ya_desbloqueadas`
snapshot taken before the loop, and the state is threaded through the
`add_razon_desbloqueada` calls made inside the loop. -/
def gnrd_aux (razones_ya : List Int) (puntos_actuales : Int) (now : Nat) :
    List Razon → EstadoApp → List Razon × EstadoApp
  | [], e => ([], e)
  | razon :: resto, e =>
    if razon.puntos_requeridos ≤ puntos_actuales ∧ razon.id ∉ razones_ya then
      let res := gnrd_aux razones_ya puntos_actuales now resto
        (add_razon_desbloqueada e razon.id now)
      (razon :: res.1, res.2)
    else gnrd_aux razones_ya puntos_actuales now resto e

/-- Embeds `get_nuevas_razones_desbloqueadas` (crud.py): collects every catalog
reason whose threshold is met and which is not in the snapshot of
`razones_desbloqueadas`, adding each to the state as it goes. -/
def get_nuevas_razones_desbloqueadas (razones : List Razon) (e : EstadoApp)
    (puntos_actuales : Int) (now : Nat) : List Razon × EstadoApp :=
  gnrd_aux e.razones_desbloqueadas puntos_actuales now razones e

/-- Success payload of `procesar_dar_punto`. -/
structure DarPuntoResult where
  nuevo_total_puntos : Int
  razones_recien_desbloqueadas : List Razon
deriving Repr, DecidableEq

/-- Embeds `procesar_dar_punto` (crud.py): increment points by 1, then unlock the
newly reachable reasons. -/
def procesar_dar_punto (razones : List Razon) (e : EstadoApp) (now : Nat) :
    DarPuntoResult × EstadoApp :=
  let estado := increment_puntos e 1 now
  let res := get_nuevas_razones_desbloqueadas razones estado
    estado.puntos_consideracion now
  ({ nuevo_total_puntos := estado.puntos_consideracion
     razones_recien_desbloqueadas := res.1 }, res.2)

/-- Success payload of `procesar_leer_carta`. -/
structure LeerCartaResult where
  nuevas_estrellas : Int
  carta_id : Int
  mensaje : String
deriving Repr, DecidableEq

/-- Embeds `procesar_leer_carta` (crud.py): `ValueError` when the letter id is not in
the catalog; an "already read" payload on repetition; otherwise mark read and
award one star. -/
def procesar_leer_carta (cartas : List Carta) (e : EstadoApp) (carta_id : Int)
    (now : Nat) : Except String LeerCartaResult × EstadoApp :=
  match get_carta_by_id cartas carta_id with
  | none => (.error ("Carta con ID " ++ toString carta_id ++ " no encontrada"), e)
  | some _ =>
    if is_carta_leida e carta_id then
      (.ok { nuevas_estrellas := e.estrellas
             carta_id := carta_id
             mensaje := "Esta carta ya fue leída anteriormente" }, e)
    else
      let e1 := add_carta_leida e carta_id now
      let estado := add_estrellas e1 1 now
      (.ok { nuevas_estrellas := estado.estrellas
             carta_id := carta_id
             mensaje := "Ganaste 1 estrella" }, estado)

/-- Prize summary embedded in the claim payload. -/
structure PremioResumen where
  id : Int
  nombre : String
  emoji : String
deriving Repr, DecidableEq

/-- Success payload of `procesar_reclamar_premio`. -/
structure ReclamarPremioResult where
  estrellas_restantes : Int
  premio : PremioResumen
  mensaje : String
deriving Repr, DecidableEq

/-- Embeds `procesar_reclamar_premio` (crud.py): existence, not-already-claimed and
sufficient-stars checks in that order, each raising `ValueError` before any
mutation; then subtract the cost and append the claim entry. -/
def procesar_reclamar_premio (premios : List Premio) (e : EstadoApp)
    (premio_id : Int) (now : Nat) : Except String ReclamarPremioResult × EstadoApp :=
  match get_premio_by_id premios premio_id with
  | none => (.error ("Premio con ID " ++ toString premio_id ++ " no encontrado"), e)
  | some premio =>
    if is_premio_reclamado e premio_id then
      (.error "Este premio ya fue reclamado", e)
    else if ! tiene_suficientes_estrellas e premio.costo then
      (.error "No tienes suficientes estrellas para este premio", e)
    else
      let estado := subtract_estrellas e premio.costo now
      (.ok { estrellas_restantes := estado.estrellas
             premio := { id := premio.id, nombre := premio.nombre, emoji := premio.emoji }
             mensaje := "¡Premio '" ++ premio.nombre ++ "' reclamado exitosamente!" },
       add_premio_reclamado estado premio_id now)

/-- Success payload of `procesar_escuchar_cancion`. -/
structure EscucharCancionResult where
  nuevas_estrellas : Int
  cancion_id : Int
  mensaje : String
deriving Repr, DecidableEq

/-- Embeds `procesar_escuchar_cancion` (crud.py): the idempotent by-id variant —
`ValueError` when the song id is not in the catalog; an "already heard"
payload on repetition; otherwise mark heard and award one star. -/
def procesar_escuchar_cancion (canciones : List Cancion) (e : EstadoApp)
    (cancion_id : Int) (now : Nat) : Except String EscucharCancionResult × EstadoApp :=
  match get_cancion_by_id canciones cancion_id with
  | none => (.error ("Canción con ID " ++ toString cancion_id ++ " no encontrada"), e)
  | some _ =>
    if is_cancion_escuchada e cancion_id then
      (.ok { nuevas_estrellas := e.estrellas
             cancion_id := cancion_id
             mensaje := "Esta canción ya fue escuchada anteriormente" }, e)
    else
      let e1 := add_cancion_escuchada e cancion_id now
      let estado := add_estrellas e1 1 now
      (.ok { nuevas_estrellas := estado.estrellas
             cancion_id := cancion_id
             mensaje := "Ganaste 1 estrella" }, estado)

/-- Payload of the always-award `POST /escuchar-cancion` endpoint. -/
structure EscucharCancionRouterResult where
  nuevas_estrellas : Int
  mensaje : String
deriving Repr, DecidableEq

/-- Embeds `escuchar_cancion` (routers/canciones.py): awards one star on every call,
with no song-id argument and no catalog lookup at all. -/
def escuchar_cancion (e : EstadoApp) (now : Nat) :
    EscucharCancionRouterResult × EstadoApp :=
  let estado := add_estrellas e 1 now
  ({ nuevas_estrellas := estado.estrellas, mensaje := "Ganaste 1 estrella" }, estado)

/-- Payload of `POST /completar-juego`. -/
structure CompletarJuegoResult where
  nuevas_estrellas : Int
  mensaje : String
deriving Repr, DecidableEq

/-- Embeds `completar_juego_bonus` (routers/juegos.py): adds 15 stars unconditionally. -/
def completar_juego_bonus (e : EstadoApp) (now : Nat) :
    CompletarJuegoResult × EstadoApp :=
  let estado := add_estrellas e 15 now
  ({ nuevas_estrellas := estado.estrellas
     mensaje := "Ganaste 15 estrellas por jugar" }, estado)

/-- One row of the `GET /premios` listing payload. -/
structure PremioResponse where
  id : Int
  nombre : String
  costo : Int
  emoji : String
  disponible : Bool
  reclamado : Bool
deriving Repr, DecidableEq

/-- The response-building loop of `get_todos_los_premios`
(routers/premios.py): `disponible` defaults to `True` when the key is
absent, `reclamado` marks ids present in `premios_reclamados`. -/
def build_premios_response (premios_data : List Premio) (e : EstadoApp) :
    List PremioResponse :=
  let premios_reclamados_ids := e.premios_reclamados.map PremioReclamado.premio_id
  premios_data.map (fun premio =>
    { id := premio.id
      nombre := premio.nombre
      costo := premio.costo
      emoji := premio.emoji
      disponible := premio.disponible.getD true
      reclamado := decide (premio.id ∈ premios_reclamados_ids) })

/-- Embeds `get_todos_los_premios` (routers/premios.py): an empty catalog raises a
404 `HTTPException`; otherwise the listing is built and stably sorted by
ascending cost. -/
def get_todos_los_premios (premios_data : List Premio) (e : EstadoApp) :
    Except String (List PremioResponse) :=
  if premios_data.isEmpty then
    .error "No se pudieron cargar los datos de premios"
  else
    .ok ((build_premios_response premios_data e).mergeSort
      (fun a b => a.costo ≤ b.costo))

/-! Section: Basic lemmas about the primitives -/

theorem gnrd_aux_nil (ya : List Int) (p : Int) (now : Nat) (e : EstadoApp) :
    gnrd_aux ya p now [] e = ([], e) := rfl

theorem gnrd_aux_cons (ya : List Int) (p : Int) (now : Nat) (razon : Razon)
    (resto : List Razon) (e : EstadoApp) :
    gnrd_aux ya p now (razon :: resto) e =
      if razon.puntos_requeridos ≤ p ∧ razon.id ∉ ya then
        ((razon :: (gnrd_aux ya p now resto (add_razon_desbloqueada e razon.id now)).1),
         (gnrd_aux ya p now resto (add_razon_desbloqueada e razon.id now)).2)
      else gnrd_aux ya p now resto e := by
  simp only [gnrd_aux]

theorem add_razon_mem (e : EstadoApp) (razon_id i : Int) (now : Nat) :
    i ∈ (add_razon_desbloqueada e razon_id now).razones_desbloqueadas ↔
      i ∈ e.razones_desbloqueadas ∨ i = razon_id := by
  unfold add_razon_desbloqueada
  split
  · rename_i hmem
    constructor
    · exact fun h => Or.inl h
    · rintro (h | rfl)
      · exact h
      · exact hmem
  · simp

theorem add_razon_resto (e : EstadoApp) (razon_id : Int) (now : Nat) :
    (add_razon_desbloqueada e razon_id now).puntos_consideracion = e.puntos_consideracion ∧
    (add_razon_desbloqueada e razon_id now).estrellas = e.estrellas ∧
    (add_razon_desbloqueada e razon_id now).cartas_leidas = e.cartas_leidas ∧
    (add_razon_desbloqueada e razon_id now).canciones_escuchadas = e.canciones_escuchadas ∧
    (add_razon_desbloqueada e razon_id now).premios_reclamados = e.premios_reclamados := by
  unfold add_razon_desbloqueada
  split <;> simp

theorem gnrd_aux_fst_mem (ya : List Int) (p : Int) (now : Nat)
    (l : List Razon) (e : EstadoApp) (r : Razon) :
    r ∈ (gnrd_aux ya p now l e).1 ↔
      r ∈ l ∧ r.puntos_requeridos ≤ p ∧ r.id ∉ ya := by
  induction l generalizing e with
  | nil => simp [gnrd_aux_nil]
  | cons razon resto ih =>
    rw [gnrd_aux_cons]
    split
    · rename_i hcond
      simp only [List.mem_cons]
      rw [ih]
      constructor
      · rintro (rfl | ⟨hm, h1, h2⟩)
        · exact ⟨Or.inl rfl, hcond.1, hcond.2⟩
        · exact ⟨Or.inr hm, h1, h2⟩
      · rintro ⟨rfl | hm, h1, h2⟩
        · exact Or.inl rfl
        · exact Or.inr ⟨hm, h1, h2⟩
    · rename_i hcond
      rw [ih]
      simp only [List.mem_cons]
      constructor
      · rintro ⟨hm, h1, h2⟩
        exact ⟨Or.inr hm, h1, h2⟩
      · rintro ⟨rfl | hm, h1, h2⟩
        · exact absurd ⟨h1, h2⟩ hcond
        · exact ⟨hm, h1, h2⟩

theorem gnrd_aux_snd_mem (ya : List Int) (p : Int) (now : Nat)
    (l : List Razon) (e : EstadoApp) (i : Int) :
    i ∈ (gnrd_aux ya p now l e).2.razones_desbloqueadas ↔
      i ∈ e.razones_desbloqueadas ∨
        ∃ r ∈ l, r.id = i ∧ r.puntos_requeridos ≤ p ∧ r.id ∉ ya := by
  induction l generalizing e with
  | nil => simp [gnrd_aux_nil]
  | cons razon resto ih =>
    rw [gnrd_aux_cons]
    split
    · rename_i hcond
      simp only [List.exists_mem_cons_iff]
      rw [ih, add_razon_mem]
      constructor
      · rintro ((hm | rfl) | ⟨r, hr, h0, h1, h2⟩)
        · exact Or.inl hm
        · exact Or.inr (Or.inl ⟨rfl, hcond.1, hcond.2⟩)
        · exact Or.inr (Or.inr ⟨r, hr, h0, h1, h2⟩)
      · rintro (hm | ⟨rfl, h1, h2⟩ | ⟨r, hr, h0, h1, h2⟩)
        · exact Or.inl (Or.inl hm)
        · exact Or.inl (Or.inr rfl)
        · exact Or.inr ⟨r, hr, h0, h1, h2⟩
    · rename_i hcond
      rw [ih]
      simp only [List.exists_mem_cons_iff]
      constructor
      · rintro (hm | ⟨r, hr, h0, h1, h2⟩)
        · exact Or.inl hm
        · exact Or.inr (Or.inr ⟨r, hr, h0, h1, h2⟩)
      · rintro (hm | ⟨h0, h1, h2⟩ | ⟨r, hr, h0, h1, h2⟩)
        · exact Or.inl hm
        · exact absurd ⟨h1, h2⟩ hcond
        · exact Or.inr ⟨r, hr, h0, h1, h2⟩

theorem gnrd_aux_snd_resto (ya : List Int) (p : Int) (now : Nat)
    (l : List Razon) (e : EstadoApp) :
    (gnrd_aux ya p now l e).2.puntos_consideracion = e.puntos_consideracion ∧
    (gnrd_aux ya p now l e).2.estrellas = e.estrellas ∧
    (gnrd_aux ya p now l e).2.cartas_leidas = e.cartas_leidas ∧
    (gnrd_aux ya p now l e).2.canciones_escuchadas = e.canciones_escuchadas ∧
    (gnrd_aux ya p now l e).2.premios_reclamados = e.premios_reclamados := by
  induction l generalizing e with
  | nil => simp [gnrd_aux_nil]
  | cons razon resto ih =>
    rw [gnrd_aux_cons]
    split
    · have h := add_razon_resto e razon.id now
      have h2 := ih (add_razon_desbloqueada e razon.id now)
      exact ⟨h2.1.trans h.1, h2.2.1.trans h.2.1, h2.2.2.1.trans h.2.2.1,
        h2.2.2.2.1.trans h.2.2.2.1, h2.2.2.2.2.trans h.2.2.2.2⟩
    · exact ih e

/-! Section: Branch equations for the fallible operations -/

theorem leer_carta_none (cartas : List Carta) (e : EstadoApp) (carta_id : Int)
    (now : Nat) (h : get_carta_by_id cartas carta_id = none) :
    procesar_leer_carta cartas e carta_id now =
      (.error ("Carta con ID " ++ toString carta_id ++ " no encontrada"), e) := by
  simp [procesar_leer_carta, h]

theorem leer_carta_ya (cartas : List Carta) (e : EstadoApp) (carta_id : Int)
    (now : Nat) (c : Carta) (h : get_carta_by_id cartas carta_id = some c)
    (hy : is_carta_leida e carta_id = true) :
    procesar_leer_carta cartas e carta_id now =
      (.ok { nuevas_estrellas := e.estrellas
             carta_id := carta_id
             mensaje := "Esta carta ya fue leída anteriormente" }, e) := by
  simp [procesar_leer_carta, h, hy]

theorem leer_carta_nueva (cartas : List Carta) (e : EstadoApp) (carta_id : Int)
    (now : Nat) (c : Carta) (h : get_carta_by_id cartas carta_id = some c)
    (hy : is_carta_leida e carta_id = false) :
    procesar_leer_carta cartas e carta_id now =
      (.ok { nuevas_estrellas := e.estrellas + 1
             carta_id := carta_id
             mensaje := "Ganaste 1 estrella" },
       { e with cartas_leidas := e.cartas_leidas ++ [carta_id]
                estrellas := e.estrellas + 1
                updated_at := now }) := by
  have hnot : carta_id ∉ e.cartas_leidas := by
    simpa [is_carta_leida] using hy
  simp [procesar_leer_carta, h, hy, add_carta_leida, hnot, add_estrellas]

theorem escuchar_none (canciones : List Cancion) (e : EstadoApp) (cancion_id : Int)
    (now : Nat) (h : get_cancion_by_id canciones cancion_id = none) :
    procesar_escuchar_cancion canciones e cancion_id now =
      (.error ("Canción con ID " ++ toString cancion_id ++ " no encontrada"), e) := by
  simp [procesar_escuchar_cancion, h]

theorem escuchar_ya (canciones : List Cancion) (e : EstadoApp) (cancion_id : Int)
    (now : Nat) (c : Cancion) (h : get_cancion_by_id canciones cancion_id = some c)
    (hy : is_cancion_escuchada e cancion_id = true) :
    procesar_escuchar_cancion canciones e cancion_id now =
      (.ok { nuevas_estrellas := e.estrellas
             cancion_id := cancion_id
             mensaje := "Esta canción ya fue escuchada anteriormente" }, e) := by
  simp [procesar_escuchar_cancion, h, hy]

theorem escuchar_nueva (canciones : List Cancion) (e : EstadoApp) (cancion_id : Int)
    (now : Nat) (c : Cancion) (h : get_cancion_by_id canciones cancion_id = some c)
    (hy : is_cancion_escuchada e cancion_id = false) :
    procesar_escuchar_cancion canciones e cancion_id now =
      (.ok { nuevas_estrellas := e.estrellas + 1
             cancion_id := cancion_id
             mensaje := "Ganaste 1 estrella" },
       { e with canciones_escuchadas := e.canciones_escuchadas ++ [cancion_id]
                estrellas := e.estrellas + 1
                updated_at := now }) := by
  have hnot : cancion_id ∉ e.canciones_escuchadas := by
    simpa [is_cancion_escuchada] using hy
  simp [procesar_escuchar_cancion, h, hy, add_cancion_escuchada, hnot, add_estrellas]

theorem reclamar_none (premios : List Premio) (e : EstadoApp) (premio_id : Int)
    (now : Nat) (h : get_premio_by_id premios premio_id = none) :
    procesar_reclamar_premio premios e premio_id now =
      (.error ("Premio con ID " ++ toString premio_id ++ " no encontrado"), e) := by
  simp [procesar_reclamar_premio, h]

theorem reclamar_ya (premios : List Premio) (e : EstadoApp) (premio_id : Int)
    (now : Nat) (premio : Premio) (h : get_premio_by_id premios premio_id = some premio)
    (hy : is_premio_reclamado e premio_id = true) :
    procesar_reclamar_premio premios e premio_id now =
      (.error "Este premio ya fue reclamado", e) := by
  simp [procesar_reclamar_premio, h, hy]

theorem reclamar_insuficiente (premios : List Premio) (e : EstadoApp) (premio_id : Int)
    (now : Nat) (premio : Premio) (h : get_premio_by_id premios premio_id = some premio)
    (hy : is_premio_reclamado e premio_id = false) (hs : e.estrellas < premio.costo) :
    procesar_reclamar_premio premios e premio_id now =
      (.error "No tienes suficientes estrellas para este premio", e) := by
  simp [procesar_reclamar_premio, h, hy, tiene_suficientes_estrellas,
    get_estrellas_disponibles]
  omega

theorem reclamar_exito (premios : List Premio) (e : EstadoApp) (premio_id : Int)
    (now : Nat) (premio : Premio) (h : get_premio_by_id premios premio_id = some premio)
    (hy : is_premio_reclamado e premio_id = false) (hs : premio.costo ≤ e.estrellas) :
    procesar_reclamar_premio premios e premio_id now =
      (.ok { estrellas_restantes := e.estrellas - premio.costo
             premio := { id := premio.id, nombre := premio.nombre, emoji := premio.emoji }
             mensaje := "¡Premio '" ++ premio.nombre ++ "' reclamado exitosamente!" },
       { e with estrellas := e.estrellas - premio.costo
                premios_reclamados := e.premios_reclamados ++ [⟨premio_id, now⟩]
                updated_at := now }) := by
  have hmax : max 0 (e.estrellas - premio.costo) = e.estrellas - premio.costo :=
    max_eq_right (by omega)
  simp [procesar_reclamar_premio, h, hy, tiene_suficientes_estrellas,
    get_estrellas_disponibles, hs, subtract_estrellas, add_premio_reclamado, hmax]

/-! Section: Sequences of awardConsiderationPoint calls -/

/-- State after `n` successive `procesar_dar_punto` calls (all stamped `now`). -/
def darPuntosEstado (razones : List Razon) (e : EstadoApp) (now : Nat) : Nat → EstadoApp
  | 0 => e
  | n + 1 => (procesar_dar_punto razones (darPuntosEstado razones e now n) now).2

/-- Result returned by the k-th call (1-based) of that sequence. -/
def darPuntoResultado (razones : List Razon) (e : EstadoApp) (now : Nat)
    (k : Nat) : DarPuntoResult :=
  (procesar_dar_punto razones (darPuntosEstado razones e now (k - 1)) now).1

theorem procesar_dar_punto_eq (razones : List Razon) (e : EstadoApp) (now : Nat) :
    procesar_dar_punto razones e now =
      ({ nuevo_total_puntos := e.puntos_consideracion + 1
         razones_recien_desbloqueadas :=
           (gnrd_aux e.razones_desbloqueadas (e.puntos_consideracion + 1) now razones
             (increment_puntos e 1 now)).1 },
       (gnrd_aux e.razones_desbloqueadas (e.puntos_consideracion + 1) now razones
         (increment_puntos e 1 now)).2) := rfl

theorem darPuntos_invariante (razones : List Razon) (now0 now : Nat) (n : Nat) :
    (darPuntosEstado razones (create_default_estado now0) now n).puntos_consideracion
        = (n : Int) ∧
    ∀ i : Int,
      i ∈ (darPuntosEstado razones (create_default_estado now0) now n).razones_desbloqueadas
        ↔ (1 ≤ n ∧ ∃ r ∈ razones, r.id = i ∧ r.puntos_requeridos ≤ (n : Int)) := by
  induction n with
  | zero => simp [darPuntosEstado, create_default_estado]
  | succ n ih =>
    obtain ⟨hp, hm⟩ := ih
    have hstep :
        darPuntosEstado razones (create_default_estado now0) now (n + 1) =
          (gnrd_aux
            (darPuntosEstado razones (create_default_estado now0) now n).razones_desbloqueadas
            ((darPuntosEstado razones (create_default_estado now0) now n).puntos_consideracion + 1)
            now razones
            (increment_puntos (darPuntosEstado razones (create_default_estado now0) now n) 1 now)).2 := by
      rw [darPuntosEstado, procesar_dar_punto_eq]
    constructor
    · rw [hstep]
      have h1 := (gnrd_aux_snd_resto
        (darPuntosEstado razones (create_default_estado now0) now n).razones_desbloqueadas
        ((darPuntosEstado razones (create_default_estado now0) now n).puntos_consideracion + 1)
        now razones
        (increment_puntos (darPuntosEstado razones (create_default_estado now0) now n) 1 now)).1
      rw [h1]
      show (darPuntosEstado razones (create_default_estado now0) now n).puntos_consideracion + 1
        = ((n + 1 : Nat) : Int)
      rw [hp]
      push_cast
      ring
    · intro i
      rw [hstep, gnrd_aux_snd_mem]
      have hinc :
          (increment_puntos (darPuntosEstado razones (create_default_estado now0) now n) 1
            now).razones_desbloqueadas =
          (darPuntosEstado razones (create_default_estado now0) now n).razones_desbloqueadas := rfl
      rw [hinc, hp]
      constructor
      · rintro (hmem | ⟨r, hr, h0, h1, h2⟩)
        · obtain ⟨hn1, r, hr, h0, h1⟩ := (hm i).mp hmem
          refine ⟨by omega, r, hr, h0, ?_⟩
          push_cast
          omega
        · refine ⟨by omega, r, hr, h0, ?_⟩
          push_cast at h1 ⊢
          omega
      · rintro ⟨hn1, r, hr, h0, h1⟩
        by_cases hc : i ∈ (darPuntosEstado razones (create_default_estado now0) now
            n).razones_desbloqueadas
        · exact Or.inl hc
        · refine Or.inr ⟨r, hr, h0, ?_, ?_⟩
          · push_cast at h1 ⊢
            omega
          · rw [h0]
            exact hc

theorem darPunto_resultado_car (razones : List Razon) (now0 now : Nat)
    (hnodup : (razones.map Razon.id).Nodup) (j : Nat) :
    (darPuntoResultado razones (create_default_estado now0) now (j + 1)).nuevo_total_puntos
        = ((j + 1 : Nat) : Int) ∧
    ∀ r ∈ razones,
      (r ∈ (darPuntoResultado razones (create_default_estado now0) now
          (j + 1)).razones_recien_desbloqueadas ↔
        ((j + 1 : Nat) : Int) = max 1 r.puntos_requeridos) := by
  obtain ⟨hp, hm⟩ := darPuntos_invariante razones now0 now j
  have hres :
      darPuntoResultado razones (create_default_estado now0) now (j + 1) =
        { nuevo_total_puntos :=
            (darPuntosEstado razones (create_default_estado now0) now j).puntos_consideracion + 1
          razones_recien_desbloqueadas :=
            (gnrd_aux
              (darPuntosEstado razones (create_default_estado now0) now j).razones_desbloqueadas
              ((darPuntosEstado razones (create_default_estado now0) now j).puntos_consideracion + 1)
              now razones
              (increment_puntos (darPuntosEstado razones (create_default_estado now0) now j) 1
                now)).1 } := by
    unfold darPuntoResultado
    rw [procesar_dar_punto_eq]
    simp
  constructor
  · rw [hres, hp]
    push_cast
    ring
  · intro r hr
    rw [hres]
    simp only
    rw [gnrd_aux_fst_mem, hm, hp]
    have hik : r.id ∈ (razones.map Razon.id) := List.mem_map_of_mem Razon.id hr
    constructor
    · rintro ⟨-, h1, h2⟩
      have hnle : ¬(1 ≤ j ∧ r.puntos_requeridos ≤ (j : Int)) := by
        intro ⟨ha, hb⟩
        exact h2 ⟨ha, r, hr, rfl, hb⟩
      rw [max_def]
      split
      · push_cast at h1 ⊢
        omega
      · push_cast at h1 ⊢
        omega
    · intro hmax
      refine ⟨hr, ?_, ?_⟩
      · rw [max_def] at hmax
        split at hmax <;> (push_cast at hmax ⊢; omega)
      · intro hcontra
        obtain ⟨h1j, r2, hr2, hid2, hle2⟩ := hcontra
        have : r2 = r := List.inj_on_of_nodup_map hnodup hr2 hr hid2
        subst this
        rw [max_def] at hmax
        split at hmax <;> (push_cast at hmax hle2; omega)

/-! Section: Claim C1 -/

/-- Claim C1: for every sequence of `n` `procesar_dar_punto` calls starting
from the default state, the points counter equals `n` (so each call adds
exactly 1, and the k-th call reports a new total of `k`); a reason id is in
`razones_desbloqueadas` after `n` calls exactly when some call has pushed the
total to its threshold; and a catalog reason appears in the newly-unlocked
list of call `k` exactly when `k` is the first call whose cumulative total
reaches its `puntos_requeridos` (that is, `k = max 1 puntos_requeridos`),
hence in exactly one call and in no later call. -/
theorem c1_award_consideration_point (razones : List Razon) (now0 now : Nat)
    (hnodup : (razones.map Razon.id).Nodup) (n : Nat) :
    (darPuntosEstado razones (create_default_estado now0) now n).puntos_consideracion
        = (n : Int) ∧
    (∀ r ∈ razones,
      (r.id ∈ (darPuntosEstado razones (create_default_estado now0) now
          n).razones_desbloqueadas ↔
        (1 ≤ n ∧ r.puntos_requeridos ≤ (n : Int)))) ∧
    (∀ k : Nat, 1 ≤ k → k ≤ n →
      (darPuntoResultado razones (create_default_estado now0) now k).nuevo_total_puntos
          = (k : Int) ∧
      (∀ r ∈ razones,
        (r ∈ (darPuntoResultado razones (create_default_estado now0) now
            k).razones_recien_desbloqueadas ↔
          (k : Int) = max 1 r.puntos_requeridos))) := by
  obtain ⟨hp, hm⟩ := darPuntos_invariante razones now0 now n
  refine ⟨hp, ?_, ?_⟩
  · intro r hr
    rw [hm r.id]
    constructor
    · rintro ⟨h1, r2, hr2, hid2, hle2⟩
      have : r2 = r := List.inj_on_of_nodup_map hnodup hr2 hr hid2
      subst this
      exact ⟨h1, hle2⟩
    · rintro ⟨h1, h2⟩
      exact ⟨h1, r, hr, rfl, h2⟩
  · intro k hk1 hkn
    obtain ⟨j, rfl⟩ : ∃ j, k = j + 1 := ⟨k - 1, by omega⟩
    exact darPunto_resultado_car razones now0 now hnodup j

/-! Section: Helper facts about claimed prizes -/

theorem no_reclamado_not_mem (e : EstadoApp) (premio_id : Int)
    (hy : is_premio_reclamado e premio_id = false) :
    premio_id ∉ e.premios_reclamados.map PremioReclamado.premio_id := by
  simp only [is_premio_reclamado, List.any_eq_false, beq_iff_eq] at hy
  simp only [List.mem_map, not_exists, not_and]
  intro pr hpr hid
  exact hy pr hpr hid

theorem reclamado_despues (e : EstadoApp) (premio_id : Int) (now : Nat) :
    is_premio_reclamado
      { e with premios_reclamados := e.premios_reclamados ++ [⟨premio_id, now⟩] }
      premio_id = true := by
  simp [is_premio_reclamado]

/-! Section: Claim C2 -/

/-- Claim C2: for a catalog prize that is not yet claimed and whose cost is
covered by the current stars, `procesar_reclamar_premio` succeeds: the stars
drop by exactly the cost, one `(premio_id, now)` entry is appended to
`premios_reclamados`, the payload reports the remaining stars; and an
immediately repeated claim of the same id fails with the already-claimed
error, leaving the state (in particular the stars) unchanged. -/
theorem c2_claim_prize_success (premios : List Premio) (e : EstadoApp)
    (premio_id : Int) (now now2 : Nat) (premio : Premio)
    (h : get_premio_by_id premios premio_id = some premio)
    (hy : is_premio_reclamado e premio_id = false)
    (hs : premio.costo ≤ e.estrellas) :
    (procesar_reclamar_premio premios e premio_id now).2.estrellas
        = e.estrellas - premio.costo ∧
    (procesar_reclamar_premio premios e premio_id now).2.premios_reclamados
        = e.premios_reclamados ++ [⟨premio_id, now⟩] ∧
    (procesar_reclamar_premio premios e premio_id now).1
        = .ok { estrellas_restantes := e.estrellas - premio.costo
                premio := { id := premio.id, nombre := premio.nombre, emoji := premio.emoji }
                mensaje := "¡Premio '" ++ premio.nombre ++ "' reclamado exitosamente!" } ∧
    procesar_reclamar_premio premios
        (procesar_reclamar_premio premios e premio_id now).2 premio_id now2
      = (.error "Este premio ya fue reclamado",
         (procesar_reclamar_premio premios e premio_id now).2) := by
  rw [reclamar_exito premios e premio_id now premio h hy hs]
  refine ⟨rfl, rfl, rfl, ?_⟩
  exact reclamar_ya premios _ premio_id now2 premio h (reclamado_despues _ premio_id now)

/-- Witness for C2 at the spec's example: prize `{id := 2, costo := 10}` and
`estrellas = 10`; the claim succeeds with 0 stars left and the immediate
second claim is rejected as already claimed. -/
theorem c2_claim_prize_success_witness :
    (procesar_reclamar_premio [⟨2, "n", 10, "g", some true⟩]
        { create_default_estado 0 with estrellas := 10 } 2 7).2.estrellas = 0 ∧
    (procesar_reclamar_premio [⟨2, "n", 10, "g", some true⟩]
        (procesar_reclamar_premio [⟨2, "n", 10, "g", some true⟩]
          { create_default_estado 0 with estrellas := 10 } 2 7).2 2 8).1
      = .error "Este premio ya fue reclamado" := by
  have h := c2_claim_prize_success [⟨2, "n", 10, "g", some true⟩]
    { create_default_estado 0 with estrellas := 10 } 2 7 8
    ⟨2, "n", 10, "g", some true⟩ rfl rfl (by decide)
  refine ⟨h.1.trans (by decide), ?_⟩
  rw [h.2.2.2]

/-! Section: Claim C3 -/

/-- Claim C3: `procesar_reclamar_premio` returns an error exactly when a
precondition fails — the not-found error when the id is absent from the
catalog, the already-claimed error when the id is in `premios_reclamados`,
the insufficient-stars error when the stars are below the cost — and every
error case returns the state completely unchanged. -/
theorem c3_claim_prize_error_cases (premios : List Premio) (e : EstadoApp)
    (premio_id : Int) (now : Nat) :
    ((∃ res, (procesar_reclamar_premio premios e premio_id now).1 = .ok res) ↔
      (∃ premio, get_premio_by_id premios premio_id = some premio ∧
        is_premio_reclamado e premio_id = false ∧ premio.costo ≤ e.estrellas)) ∧
    (get_premio_by_id premios premio_id = none →
      procesar_reclamar_premio premios e premio_id now =
        (.error ("Premio con ID " ++ toString premio_id ++ " no encontrado"), e)) ∧
    (∀ premio, get_premio_by_id premios premio_id = some premio →
      is_premio_reclamado e premio_id = true →
      procesar_reclamar_premio premios e premio_id now =
        (.error "Este premio ya fue reclamado", e)) ∧
    (∀ premio, get_premio_by_id premios premio_id = some premio →
      is_premio_reclamado e premio_id = false → e.estrellas < premio.costo →
      procesar_reclamar_premio premios e premio_id now =
        (.error "No tienes suficientes estrellas para este premio", e)) := by
  refine ⟨?_, fun h => reclamar_none premios e premio_id now h,
    fun premio h hy => reclamar_ya premios e premio_id now premio h hy,
    fun premio h hy hs => reclamar_insuficiente premios e premio_id now premio h hy hs⟩
  rcases hf : get_premio_by_id premios premio_id with - | premio
  · rw [reclamar_none premios e premio_id now hf]
    simp
  · rcases hy : is_premio_reclamado e premio_id with - | -
    · by_cases hs : premio.costo ≤ e.estrellas
      · rw [reclamar_exito premios e premio_id now premio hf hy hs]
        exact ⟨fun _ => ⟨premio, rfl, rfl, hs⟩, fun _ => ⟨_, rfl⟩⟩
      · rw [reclamar_insuficiente premios e premio_id now premio hf hy (by omega)]
        constructor
        · rintro ⟨res, hres⟩
          exact absurd hres (by simp)
        · rintro ⟨premio2, hp2, -, hs2⟩
          obtain rfl : premio = premio2 := by injection hp2
          exact absurd hs2 hs
    · rw [reclamar_ya premios e premio_id now premio hf hy]
      constructor
      · rintro ⟨res, hres⟩
        exact absurd hres (by simp)
      · rintro ⟨premio2, hp2, hy2, -⟩
        exact absurd hy2 (by simp)

/-- Witness for C3: with an empty catalog any claim errors with the
not-found message and the state is returned unchanged. -/
theorem c3_claim_prize_error_cases_witness :
    procesar_reclamar_premio [] (create_default_estado 0) 7 3 =
      (.error "Premio con ID 7 no encontrado", create_default_estado 0) :=
  (c3_claim_prize_error_cases [] (create_default_estado 0) 7 3).2.1 rfl

/-! Section: Claim C10 -/

/-- Claim C10: the preconditions of `procesar_reclamar_premio` are checked in
a fixed order — existence, then already-claimed, then funds — so a prize that
exists, is already claimed and is also unaffordable is rejected with the
already-claimed error (not the insufficient-stars one), and an id absent from
the catalog yields the not-found error whatever the state. -/
theorem c10_precondition_order (premios : List Premio) (e : EstadoApp)
    (premio_id : Int) (now : Nat) :
    (∀ premio, get_premio_by_id premios premio_id = some premio →
      is_premio_reclamado e premio_id = true → e.estrellas < premio.costo →
      procesar_reclamar_premio premios e premio_id now =
        (.error "Este premio ya fue reclamado", e)) ∧
    (get_premio_by_id premios premio_id = none →
      procesar_reclamar_premio premios e premio_id now =
        (.error ("Premio con ID " ++ toString premio_id ++ " no encontrado"), e)) :=
  ⟨fun premio h hy _ => reclamar_ya premios e premio_id now premio h hy,
   fun h => reclamar_none premios e premio_id now h⟩

/-- Witness for C10: prize 2 costs 10, the state has 0 stars and prize 2
already claimed; the reported error is the already-claimed one. -/
theorem c10_precondition_order_witness :
    procesar_reclamar_premio [⟨2, "n", 10, "g", some true⟩]
        { create_default_estado 0 with premios_reclamados := [⟨2, 1⟩] } 2 5 =
      (.error "Este premio ya fue reclamado",
       { create_default_estado 0 with premios_reclamados := [⟨2, 1⟩] }) :=
  (c10_precondition_order [⟨2, "n", 10, "g", some true⟩]
      { create_default_estado 0 with premios_reclamados := [⟨2, 1⟩] } 2 5).1
    ⟨2, "n", 10, "g", some true⟩ rfl rfl (by decide)

/-! Section: Claim C6 -/

/-- Claim C6: `subtract_estrellas` is total and clamps at zero — the new star
count is always `max 0 (stars - amount)` — while every successful
`procesar_reclamar_premio` run deducts the true cost with no clamping,
because the sufficiency check has already guaranteed `costo ≤ estrellas`
at the point of deduction. -/
theorem c6_subtract_floor (e : EstadoApp) (cantidad : Int) (now : Nat)
    (premios : List Premio) (e0 : EstadoApp) (premio_id : Int) (now0 : Nat) :
    (subtract_estrellas e cantidad now).estrellas = max 0 (e.estrellas - cantidad) ∧
    (∀ res, (procesar_reclamar_premio premios e0 premio_id now0).1 = .ok res →
      ∃ premio, get_premio_by_id premios premio_id = some premio ∧
        premio.costo ≤ e0.estrellas ∧
        max 0 (e0.estrellas - premio.costo) = e0.estrellas - premio.costo ∧
        (procesar_reclamar_premio premios e0 premio_id now0).2.estrellas
          = e0.estrellas - premio.costo) := by
  refine ⟨rfl, ?_⟩
  intro res hres
  rcases hf : get_premio_by_id premios premio_id with - | premio
  · rw [reclamar_none premios e0 premio_id now0 hf] at hres
    exact absurd hres (by simp)
  · rcases hy : is_premio_reclamado e0 premio_id with - | -
    · by_cases hs : premio.costo ≤ e0.estrellas
      · rw [reclamar_exito premios e0 premio_id now0 premio hf hy hs]
        exact ⟨premio, rfl, hs, max_eq_right (by omega), rfl⟩
      · rw [reclamar_insuficiente premios e0 premio_id now0 premio hf hy (by omega)] at hres
        exact absurd hres (by simp)
    · rw [reclamar_ya premios e0 premio_id now0 premio hf hy] at hres
      exact absurd hres (by simp)

/-- Witness for C6: subtracting 5 from 3 stars floors at 0, and the concrete
successful claim of a 10-cost prize from 10 stars deducts exactly 10. -/
theorem c6_subtract_floor_witness :
    (subtract_estrellas { create_default_estado 0 with estrellas := 3 } 5 1).estrellas
        = max 0 ((3 : Int) - 5) ∧
    ∃ premio, get_premio_by_id [⟨2, "n", 10, "g", some true⟩] 2 = some premio ∧
      premio.costo ≤ (10 : Int) ∧
      max 0 ((10 : Int) - premio.costo) = 10 - premio.costo ∧
      (procesar_reclamar_premio [⟨2, "n", 10, "g", some true⟩]
        { create_default_estado 0 with estrellas := 10 } 2 7).2.estrellas
        = 10 - premio.costo := by
  have h := c6_subtract_floor { create_default_estado 0 with estrellas := 3 } 5 1
    [⟨2, "n", 10, "g", some true⟩] { create_default_estado 0 with estrellas := 10 } 2 7
  exact ⟨h.1, h.2 ({ estrellas_restantes := 0
                     premio := { id := 2, nombre := "n", emoji := "g" }
                     mensaje := "¡Premio 'n' reclamado exitosamente!" } :
    ReclamarPremioResult) rfl⟩

/-! Section: Claim C9 -/

/-- Claim C9: `procesar_reclamar_premio` never consults the `disponible`
flag — rewriting every catalog record's `disponible` field arbitrarily does
not change the outcome, and in particular an unavailable, unclaimed,
affordable prize is claimed with the usual deduction — while the flag (with
its default of `true` when absent) only shows up in the listing payload. -/
theorem c9_disponible_ignored (premios : List Premio) (f : Premio → Option Bool)
    (e : EstadoApp) (premio_id : Int) (now : Nat) :
    (procesar_reclamar_premio
        (premios.map (fun premio => { premio with disponible := f premio }))
        e premio_id now
      = procesar_reclamar_premio premios e premio_id now) ∧
    ((build_premios_response premios e).map PremioResponse.disponible
      = premios.map (fun premio => premio.disponible.getD true)) ∧
    (∀ premio, get_premio_by_id premios premio_id = some premio →
      premio.disponible = some false →
      is_premio_reclamado e premio_id = false → premio.costo ≤ e.estrellas →
      (procesar_reclamar_premio premios e premio_id now).1
        = .ok { estrellas_restantes := e.estrellas - premio.costo
                premio := { id := premio.id, nombre := premio.nombre
                            emoji := premio.emoji }
                mensaje := "¡Premio '" ++ premio.nombre ++ "' reclamado exitosamente!" } ∧
      (procesar_reclamar_premio premios e premio_id now).2.estrellas
        = e.estrellas - premio.costo) := by
  refine ⟨?_, ?_, ?_⟩
  · have hfind : get_premio_by_id
        (premios.map (fun premio => { premio with disponible := f premio })) premio_id
      = (get_premio_by_id premios premio_id).map
          (fun premio => { premio with disponible := f premio }) := by
      unfold get_premio_by_id
      rw [List.find?_map]
      rfl
    rcases hf : get_premio_by_id premios premio_id with - | premio
    · rw [reclamar_none _ e premio_id now (by rw [hfind, hf]; rfl),
        reclamar_none premios e premio_id now hf]
    · have hfind2 : get_premio_by_id
          (premios.map (fun premio => { premio with disponible := f premio })) premio_id
        = some { premio with disponible := f premio } := by
        rw [hfind, hf]
        rfl
      rcases hy : is_premio_reclamado e premio_id with - | -
      · by_cases hs : premio.costo ≤ e.estrellas
        · rw [reclamar_exito _ e premio_id now _ hfind2 hy hs,
            reclamar_exito premios e premio_id now premio hf hy hs]
        · rw [reclamar_insuficiente _ e premio_id now _ hfind2 hy
              (by show e.estrellas < premio.costo; omega),
            reclamar_insuficiente premios e premio_id now premio hf hy (by omega)]
      · rw [reclamar_ya _ e premio_id now _ hfind2 hy,
          reclamar_ya premios e premio_id now premio hf hy]
  · simp [build_premios_response]
  · intro premio h _ hy hs
    rw [reclamar_exito premios e premio_id now premio h hy hs]
    exact ⟨rfl, rfl⟩

/-- Witness for C9: a prize marked unavailable is still claimable, and the
single-row listing reports `disponible = false` for it. -/
theorem c9_disponible_ignored_witness :
    (procesar_reclamar_premio [⟨2, "n", 10, "g", some false⟩]
        { create_default_estado 0 with estrellas := 10 } 2 7).2.estrellas
      = (10 : Int) - 10 ∧
    (build_premios_response [⟨2, "n", 10, "g", some false⟩]
        (create_default_estado 0)).map PremioResponse.disponible
      = ([⟨2, "n", 10, "g", some false⟩] : List Premio).map
          (fun premio => premio.disponible.getD true) := by
  have h := c9_disponible_ignored [⟨2, "n", 10, "g", some false⟩]
    (fun _ => some false) { create_default_estado 0 with estrellas := 10 } 2 7
  exact ⟨(h.2.2 ⟨2, "n", 10, "g", some false⟩ rfl rfl rfl (by decide)).2,
    c9_disponible_ignored [⟨2, "n", 10, "g", some false⟩]
      (fun _ => some false) (create_default_estado 0) 2 7 |>.2.1⟩

/-- Witness for C1 at the spec's example: one catalog reason with threshold 3;
after four calls the total is 4, the reason is in the unlocked set, it is
returned by call 3, and not by call 4. -/
theorem c1_award_consideration_point_witness :
    (darPuntosEstado [⟨5, "t", "e", "c", 3⟩] (create_default_estado 0) 0
        4).puntos_consideracion = ((4 : Nat) : Int) ∧
    (5 : Int) ∈ (darPuntosEstado [⟨5, "t", "e", "c", 3⟩] (create_default_estado 0) 0
        4).razones_desbloqueadas ∧
    (⟨5, "t", "e", "c", 3⟩ : Razon) ∈ (darPuntoResultado [⟨5, "t", "e", "c", 3⟩]
        (create_default_estado 0) 0 3).razones_recien_desbloqueadas ∧
    (⟨5, "t", "e", "c", 3⟩ : Razon) ∉ (darPuntoResultado [⟨5, "t", "e", "c", 3⟩]
        (create_default_estado 0) 0 4).razones_recien_desbloqueadas := by
  have h := c1_award_consideration_point [⟨5, "t", "e", "c", 3⟩] 0 0 (by decide) 4
  refine ⟨h.1, ?_, ?_, ?_⟩
  · exact (h.2.1 ⟨5, "t", "e", "c", 3⟩ (by decide)).mpr ⟨by decide, by decide⟩
  · exact ((h.2.2 3 (by decide) (by decide)).2 ⟨5, "t", "e", "c", 3⟩ (by decide)).mpr
      (by decide)
  · intro hcontra
    have := ((h.2.2 4 (by decide) (by decide)).2 ⟨5, "t", "e", "c", 3⟩
      (by decide)).mp hcontra
    exact absurd this (by decide)

/-! Section: Claim C4 -/

/-- Claim C4: for a catalog letter not yet read, `procesar_leer_carta`
appends the id to `cartas_leidas` and adds exactly one star; the immediate
second call returns the "already read" payload (no error), adds no star and
returns the state unchanged; and an id absent from the catalog yields the
not-found error with the state unchanged. -/
theorem c4_read_letter (cartas : List Carta) (e : EstadoApp) (carta_id : Int)
    (now now2 : Nat) :
    (get_carta_by_id cartas carta_id = none →
      procesar_leer_carta cartas e carta_id now =
        (.error ("Carta con ID " ++ toString carta_id ++ " no encontrada"), e)) ∧
    (∀ c, get_carta_by_id cartas carta_id = some c →
      is_carta_leida e carta_id = false →
      procesar_leer_carta cartas e carta_id now =
        (.ok { nuevas_estrellas := e.estrellas + 1
               carta_id := carta_id
               mensaje := "Ganaste 1 estrella" },
         { e with cartas_leidas := e.cartas_leidas ++ [carta_id]
                  estrellas := e.estrellas + 1
                  updated_at := now }) ∧
      procesar_leer_carta cartas (procesar_leer_carta cartas e carta_id now).2
          carta_id now2 =
        (.ok { nuevas_estrellas := e.estrellas + 1
               carta_id := carta_id
               mensaje := "Esta carta ya fue leída anteriormente" },
         (procesar_leer_carta cartas e carta_id now).2)) ∧
    (∀ c, get_carta_by_id cartas carta_id = some c →
      is_carta_leida e carta_id = true →
      procesar_leer_carta cartas e carta_id now =
        (.ok { nuevas_estrellas := e.estrellas
               carta_id := carta_id
               mensaje := "Esta carta ya fue leída anteriormente" }, e)) := by
  refine ⟨fun h => leer_carta_none cartas e carta_id now h, ?_,
    fun c h hy => leer_carta_ya cartas e carta_id now c h hy⟩
  intro c h hy
  have h1 := leer_carta_nueva cartas e carta_id now c h hy
  refine ⟨h1, ?_⟩
  rw [h1]
  exact leer_carta_ya cartas _ carta_id now2 c h (by simp [is_carta_leida])

/-- Witness for C4: a one-letter catalog; the first read awards the star,
the second read reports "already read" with no further star. -/
theorem c4_read_letter_witness :
    procesar_leer_carta [⟨1, "t", "c"⟩] (create_default_estado 0) 1 5 =
      (.ok { nuevas_estrellas := 1, carta_id := 1, mensaje := "Ganaste 1 estrella" },
       { create_default_estado 0 with cartas_leidas := [1], estrellas := 1
                                      updated_at := 5 }) ∧
    procesar_leer_carta [⟨1, "t", "c"⟩]
        (procesar_leer_carta [⟨1, "t", "c"⟩] (create_default_estado 0) 1 5).2 1 6 =
      (.ok { nuevas_estrellas := 1, carta_id := 1
             mensaje := "Esta carta ya fue leída anteriormente" },
       (procesar_leer_carta [⟨1, "t", "c"⟩] (create_default_estado 0) 1 5).2) := by
  have h := (c4_read_letter [⟨1, "t", "c"⟩] (create_default_estado 0) 1 5 6).2.1
    ⟨1, "t", "c"⟩ rfl rfl
  exact ⟨h.1, h.2⟩

/-! Section: Claim C5 -/

/-- State after `n` calls of the always-award `POST /escuchar-cancion`
endpoint. -/
def escucharNVeces (e : EstadoApp) (now : Nat) : Nat → EstadoApp
  | 0 => e
  | n + 1 => (escuchar_cancion (escucharNVeces e now n) now).2

/-- Claim C5: the two listen-to-song operations differ — the router-level
`escuchar_cancion` takes no song id, validates nothing and adds one star on
every call (`n` calls add `n` stars), while the by-id
`procesar_escuchar_cancion` rejects unknown ids, awards one star only on the
first call for a given id, and on repetition returns the "already heard"
payload adding no star and leaving the state unchanged. -/
theorem c5_listen_two_variants (e : EstadoApp) (now : Nat) (n : Nat)
    (canciones : List Cancion) (e0 : EstadoApp) (cancion_id : Int) (now0 : Nat) :
    (escuchar_cancion e now =
      ({ nuevas_estrellas := e.estrellas + 1, mensaje := "Ganaste 1 estrella" },
       { e with estrellas := e.estrellas + 1, updated_at := now })) ∧
    ((escucharNVeces e now n).estrellas = e.estrellas + (n : Int)) ∧
    (get_cancion_by_id canciones cancion_id = none →
      procesar_escuchar_cancion canciones e0 cancion_id now0 =
        (.error ("Canción con ID " ++ toString cancion_id ++ " no encontrada"), e0)) ∧
    (∀ c, get_cancion_by_id canciones cancion_id = some c →
      is_cancion_escuchada e0 cancion_id = false →
      procesar_escuchar_cancion canciones e0 cancion_id now0 =
        (.ok { nuevas_estrellas := e0.estrellas + 1
               cancion_id := cancion_id
               mensaje := "Ganaste 1 estrella" },
         { e0 with canciones_escuchadas := e0.canciones_escuchadas ++ [cancion_id]
                   estrellas := e0.estrellas + 1
                   updated_at := now0 }) ∧
      procesar_escuchar_cancion canciones
          (procesar_escuchar_cancion canciones e0 cancion_id now0).2 cancion_id now0 =
        (.ok { nuevas_estrellas := e0.estrellas + 1
               cancion_id := cancion_id
               mensaje := "Esta canción ya fue escuchada anteriormente" },
         (procesar_escuchar_cancion canciones e0 cancion_id now0).2)) ∧
    (∀ c, get_cancion_by_id canciones cancion_id = some c →
      is_cancion_escuchada e0 cancion_id = true →
      procesar_escuchar_cancion canciones e0 cancion_id now0 =
        (.ok { nuevas_estrellas := e0.estrellas
               cancion_id := cancion_id
               mensaje := "Esta canción ya fue escuchada anteriormente" }, e0)) := by
  refine ⟨rfl, ?_, fun h => escuchar_none canciones e0 cancion_id now0 h, ?_,
    fun c h hy => escuchar_ya canciones e0 cancion_id now0 c h hy⟩
  · induction n with
    | zero => simp [escucharNVeces]
    | succ n ih =>
      show (escuchar_cancion (escucharNVeces e now n) now).2.estrellas = _
      have : (escuchar_cancion (escucharNVeces e now n) now).2.estrellas =
          (escucharNVeces e now n).estrellas + 1 := rfl
      rw [this, ih]
      push_cast
      ring
  · intro c h hy
    have h1 := escuchar_nueva canciones e0 cancion_id now0 c h hy
    refine ⟨h1, ?_⟩
    rw [h1]
    exact escuchar_ya canciones _ cancion_id now0 c h (by simp [is_cancion_escuchada])

/-- Witness for C5: three always-award calls add three stars from the default
state, and a concrete by-id first listen awards one star while the repeat
adds none. -/
theorem c5_listen_two_variants_witness :
    (escucharNVeces (create_default_estado 0) 1 3).estrellas = 0 + ((3 : Nat) : Int) ∧
    procesar_escuchar_cancion [⟨4, "n", "a", "l", "m"⟩]
        (create_default_estado 0) 4 9 =
      (.ok { nuevas_estrellas := 1, cancion_id := 4, mensaje := "Ganaste 1 estrella" },
       { create_default_estado 0 with canciones_escuchadas := [4], estrellas := 1
                                      updated_at := 9 }) := by
  have h := c5_listen_two_variants (create_default_estado 0) 1 3
    [⟨4, "n", "a", "l", "m"⟩] (create_default_estado 0) 4 9
  refine ⟨h.2.1, ?_⟩
  have h2 := (h.2.2.2.1 ⟨4, "n", "a", "l", "m"⟩ rfl rfl).1
  exact h2

/-! Section: Claim C8 -/

/-- Claim C8: a missing or malformed catalog file makes the loader return the
empty list instead of failing, and every operation degrades gracefully over
an empty catalog: the by-id lookups return `none`, the fallible operations
report their not-found client error with the state unchanged, the unlock scan
unlocks nothing, and the prize listing reports its (404) not-found error —
no catalog load failure ever propagates as an operation failure. -/
theorem c8_catalog_load_degrades (α : Type) (i p : Int) (e : EstadoApp)
    (now : Nat) :
    (load_json_data (JsonLoadOutcome.fileNotFound : JsonLoadOutcome α) = [] ∧
     load_json_data (JsonLoadOutcome.jsonDecodeError : JsonLoadOutcome α) = []) ∧
    (get_carta_by_id [] i = none ∧ get_razon_by_id [] i = none ∧
     get_premio_by_id [] i = none ∧ get_cancion_by_id [] i = none) ∧
    (procesar_leer_carta [] e i now =
      (.error ("Carta con ID " ++ toString i ++ " no encontrada"), e)) ∧
    (procesar_reclamar_premio [] e i now =
      (.error ("Premio con ID " ++ toString i ++ " no encontrado"), e)) ∧
    (procesar_escuchar_cancion [] e i now =
      (.error ("Canción con ID " ++ toString i ++ " no encontrada"), e)) ∧
    (get_nuevas_razones_desbloqueadas [] e p now = ([], e)) ∧
    (get_todos_los_premios [] e = .error "No se pudieron cargar los datos de premios") :=
  ⟨⟨rfl, rfl⟩, ⟨rfl, rfl, rfl, rfl⟩,
   leer_carta_none [] e i now rfl,
   reclamar_none [] e i now rfl,
   escuchar_none [] e i now rfl,
   rfl, rfl⟩

/-! Section: Progress invariants (Claim C7) -/

/-- The Progress invariants of the spec: stars never negative, and a given
prize id appears at most once in the claimed-prizes log. -/
def EstadoInvariante (e : EstadoApp) : Prop :=
  0 ≤ e.estrellas ∧ (e.premios_reclamados.map PremioReclamado.premio_id).Nodup

/-- Monotone growth between two states: points never decrease, unlocked
reasons, read letters and heard songs are never removed, and the
claimed-prizes log is append-only. -/
def EstadoCrece (e e2 : EstadoApp) : Prop :=
  e.puntos_consideracion ≤ e2.puntos_consideracion ∧
  (∀ i ∈ e.razones_desbloqueadas, i ∈ e2.razones_desbloqueadas) ∧
  (∀ i ∈ e.cartas_leidas, i ∈ e2.cartas_leidas) ∧
  (∀ i ∈ e.canciones_escuchadas, i ∈ e2.canciones_escuchadas) ∧
  (∃ t, e2.premios_reclamados = e.premios_reclamados ++ t)

theorem estadoCrece_refl (e : EstadoApp) : EstadoCrece e e :=
  ⟨le_refl _, fun _ h => h, fun _ h => h, fun _ h => h, ⟨[], by simp⟩⟩

theorem estadoCrece_trans (a b c : EstadoApp) (h1 : EstadoCrece a b)
    (h2 : EstadoCrece b c) : EstadoCrece a c := by
  obtain ⟨p1, r1, c1, s1, t1, ht1⟩ := h1
  obtain ⟨p2, r2, c2, s2, t2, ht2⟩ := h2
  exact ⟨p1.trans p2, fun i h => r2 i (r1 i h), fun i h => c2 i (c1 i h),
    fun i h => s2 i (s1 i h), ⟨t1 ++ t2, by rw [ht2, ht1, List.append_assoc]⟩⟩

theorem inv_crece_gnrd_aux (razones : List Razon) (ya : List Int) (p : Int)
    (now : Nat) (e : EstadoApp) (hinv : EstadoInvariante e) :
    EstadoInvariante (gnrd_aux ya p now razones e).2 ∧
    EstadoCrece e (gnrd_aux ya p now razones e).2 := by
  obtain ⟨hpu, hes, hca, hcs, hpr⟩ := gnrd_aux_snd_resto ya p now razones e
  refine ⟨⟨?_, ?_⟩, ?_, ?_, ?_, ?_, ?_⟩
  · rw [hes]
    exact hinv.1
  · rw [hpr]
    exact hinv.2
  · rw [hpu]
  · intro i h
    exact (gnrd_aux_snd_mem ya p now razones e i).mpr (Or.inl h)
  · rw [hca]
    exact fun _ h => h
  · rw [hcs]
    exact fun _ h => h
  · exact ⟨[], by rw [hpr, List.append_nil]⟩

theorem inv_crece_add_estrellas (e : EstadoApp) (cantidad : Int) (now : Nat)
    (hinv : EstadoInvariante e) (hc : 0 ≤ cantidad) :
    EstadoInvariante (add_estrellas e cantidad now) ∧
    EstadoCrece e (add_estrellas e cantidad now) :=
  ⟨⟨by have h0 := hinv.1; simp only [add_estrellas]; omega, hinv.2⟩,
   ⟨le_refl _, fun _ h => h, fun _ h => h, fun _ h => h, ⟨[], by simp [add_estrellas]⟩⟩⟩

/-- Claim C7: every Transaction Engine operation — award point, read letter,
both listen-to-song variants, claim prize, the unlock-reasons scan and the
game bonus — preserves the Progress invariants (stars never negative, each
prize id claimed at most once) and only grows the state: points never
decrease, the unlocked/read/heard id collections never lose an element, and
the claimed-prizes log is append-only. -/
theorem c7_operations_preserve_invariants (e : EstadoApp)
    (hinv : EstadoInvariante e) :
    (∀ razones now, EstadoInvariante (procesar_dar_punto razones e now).2 ∧
      EstadoCrece e (procesar_dar_punto razones e now).2) ∧
    (∀ cartas carta_id now,
      EstadoInvariante (procesar_leer_carta cartas e carta_id now).2 ∧
      EstadoCrece e (procesar_leer_carta cartas e carta_id now).2) ∧
    (∀ now, EstadoInvariante (escuchar_cancion e now).2 ∧
      EstadoCrece e (escuchar_cancion e now).2) ∧
    (∀ canciones cancion_id now,
      EstadoInvariante (procesar_escuchar_cancion canciones e cancion_id now).2 ∧
      EstadoCrece e (procesar_escuchar_cancion canciones e cancion_id now).2) ∧
    (∀ premios premio_id now,
      EstadoInvariante (procesar_reclamar_premio premios e premio_id now).2 ∧
      EstadoCrece e (procesar_reclamar_premio premios e premio_id now).2) ∧
    (∀ razones p now,
      EstadoInvariante (get_nuevas_razones_desbloqueadas razones e p now).2 ∧
      EstadoCrece e (get_nuevas_razones_desbloqueadas razones e p now).2) ∧
    (∀ now, EstadoInvariante (completar_juego_bonus e now).2 ∧
      EstadoCrece e (completar_juego_bonus e now).2) := by
  refine ⟨?_, ?_, ?_, ?_, ?_, ?_, ?_⟩
  · intro razones now
    have hinc : EstadoInvariante (increment_puntos e 1 now) := ⟨hinv.1, hinv.2⟩
    have hg := inv_crece_gnrd_aux razones e.razones_desbloqueadas
      (e.puntos_consideracion + 1) now (increment_puntos e 1 now) hinc
    refine ⟨hg.1, estadoCrece_trans e (increment_puntos e 1 now) _ ?_ hg.2⟩
    exact ⟨by simp only [increment_puntos]; omega, fun _ h => h, fun _ h => h,
      fun _ h => h, ⟨[], by simp [increment_puntos]⟩⟩
  · intro cartas carta_id now
    rcases hf : get_carta_by_id cartas carta_id with - | c
    · rw [leer_carta_none cartas e carta_id now hf]
      exact ⟨hinv, estadoCrece_refl e⟩
    · rcases hy : is_carta_leida e carta_id with - | -
      · rw [leer_carta_nueva cartas e carta_id now c hf hy]
        refine ⟨⟨by have h0 := hinv.1; simp only []; omega, hinv.2⟩,
          le_refl _, fun _ h => h, fun i h => List.mem_append_left _ h,
          fun _ h => h, ⟨[], by simp⟩⟩
      · rw [leer_carta_ya cartas e carta_id now c hf hy]
        exact ⟨hinv, estadoCrece_refl e⟩
  · intro now
    exact inv_crece_add_estrellas e 1 now hinv (by omega)
  · intro canciones cancion_id now
    rcases hf : get_cancion_by_id canciones cancion_id with - | c
    · rw [escuchar_none canciones e cancion_id now hf]
      exact ⟨hinv, estadoCrece_refl e⟩
    · rcases hy : is_cancion_escuchada e cancion_id with - | -
      · rw [escuchar_nueva canciones e cancion_id now c hf hy]
        refine ⟨⟨by have h0 := hinv.1; simp only []; omega, hinv.2⟩,
          le_refl _, fun _ h => h, fun _ h => h,
          fun i h => List.mem_append_left _ h, ⟨[], by simp⟩⟩
      · rw [escuchar_ya canciones e cancion_id now c hf hy]
        exact ⟨hinv, estadoCrece_refl e⟩
  · intro premios premio_id now
    rcases hf : get_premio_by_id premios premio_id with - | premio
    · rw [reclamar_none premios e premio_id now hf]
      exact ⟨hinv, estadoCrece_refl e⟩
    · rcases hy : is_premio_reclamado e premio_id with - | -
      · by_cases hs : premio.costo ≤ e.estrellas
        · rw [reclamar_exito premios e premio_id now premio hf hy hs]
          constructor
          · constructor
            · show (0 : Int) ≤ e.estrellas - premio.costo
              omega
            · show ((e.premios_reclamados ++ ([⟨premio_id, now⟩] :
                List PremioReclamado)).map PremioReclamado.premio_id).Nodup
              rw [List.map_append, List.nodup_append]
              refine ⟨hinv.2, List.nodup_singleton _, ?_⟩
              intro a ha hb
              simp only [List.map_cons, List.map_nil, List.mem_singleton] at hb
              rw [hb] at ha
              exact no_reclamado_not_mem e premio_id hy ha
          · refine ⟨le_refl _, fun _ h => h, fun _ h => h, fun _ h => h, ?_⟩
            exact ⟨[⟨premio_id, now⟩], rfl⟩
        · rw [reclamar_insuficiente premios e premio_id now premio hf hy (by omega)]
          exact ⟨hinv, estadoCrece_refl e⟩
      · rw [reclamar_ya premios e premio_id now premio hf hy]
        exact ⟨hinv, estadoCrece_refl e⟩
  · intro razones p now
    exact inv_crece_gnrd_aux razones e.razones_desbloqueadas p now e hinv
  · intro now
    exact inv_crece_add_estrellas e 15 now hinv (by omega)

/-- Witness for C7: from the default state (which satisfies the invariants)
the game bonus keeps them and only grows the state. -/
theorem c7_operations_preserve_invariants_witness :
    EstadoInvariante (completar_juego_bonus (create_default_estado 0) 3).2 ∧
    EstadoCrece (create_default_estado 0)
      (completar_juego_bonus (create_default_estado 0) 3).2 :=
  (c7_operations_preserve_invariants (create_default_estado 0)
    ⟨by decide, by decide⟩).2.2.2.2.2.2 3
